import Mathlib

set_option maxRecDepth 16000

/-!
Shallow embedding of the bond-pricing program (src/bondfinal.cpp).

Modelling choices:
* C++ doubles are modelled as exact rationals (ℚ); the arithmetic is the
  ideal real arithmetic the formulas denote.
* The int fields remaining_years and payment_frequency are modelled as ℕ
  (the program's domain: the spec calls them positive integers, and every
  claim is about nonnegative values).
* The accumulation for-loops of the source (present value, duration,
  convexity) become structural recursions on the loop counter; the
  summand at counter value t + 1 is the body of the source's iteration t+1.
* The bounded for-loop of the YTM solver recurses on its remaining
  iteration count, exactly as in the source.  The unbounded while-loops
  (break-even bisection, the sensitivity sweep) are given explicit fuel
  and return Option: none means the fuel ran out before the loop
  condition failed, some r means the loop genuinely terminated with
  result r, so termination is a provable statement, not an assumption.
* The display functions are modelled as the lists of records they print.
-/

structure Bond where
  face_value : ℚ
  coupon_rate : ℚ
  market_price : ℚ
  remaining_years : ℕ
  payment_frequency : ℕ
  required_yield : ℚ
  deriving DecidableEq

/-- face_value * coupon_rate / payment_frequency (source line 17). -/
def calculate_coupon (b : Bond) : ℚ :=
  b.face_value * b.coupon_rate / b.payment_frequency

/-- The accumulation loop of calculate_present_value (source lines
26-28): after n passes the accumulator holds the sum over t = 1..n of
coupon / base^t. -/
def pv_loop (coupon base : ℚ) : ℕ → ℚ
  | 0 => 0
  | t + 1 => pv_loop coupon base t + coupon / base ^ (t + 1)

/-- Present value at an annual nominal rate (source lines 21-31):
the coupon sum over t = 1..periods plus the discounted redemption
face_value / (1 + rate/freq)^periods, with periods = years * freq. -/
def calculate_present_value (b : Bond) (rate : ℚ) : ℚ :=
  let coupon := calculate_coupon b
  let periods := b.remaining_years * b.payment_frequency
  pv_loop coupon (1 + rate / b.payment_frequency) periods
    + b.face_value / (1 + rate / b.payment_frequency) ^ periods

/-- One state of the YTM bisection (source lines 37-51).  The first
argument is the number of iterations still allowed (max_iter minus the
iterations already done); the last argument is the mid value computed by
the previous iteration, returned when the iteration budget is exhausted
(mid starts at 0, source line 35). -/
def ytm_loop (b : Bond) (tol : ℚ) : ℕ → ℚ → ℚ → ℚ → ℚ
  | 0, _, _, mid => mid
  | n + 1, low, high, _ =>
    let mid := (low + high) / 2
    let pv := calculate_present_value b mid
    if |b.market_price - pv| < tol then mid
    else if pv < b.market_price then ytm_loop b tol n low mid mid
    else ytm_loop b tol n mid high mid

/-- Bisection YTM solver on [0, 1] (source lines 33-54); the source
defaults are tol = 1e-6 and max_iter = 1000. -/
def calculate_ytm (b : Bond) (tol : ℚ) (max_iter : ℕ) : ℚ :=
  ytm_loop b tol max_iter 0 1 0

/-- The accumulation loop of calculate_macaulay_duration (source lines
61-63): after n passes the accumulator holds the sum over t = 1..n of
t * coupon / base^t. -/
def duration_loop (coupon base : ℚ) : ℕ → ℚ
  | 0 => 0
  | t + 1 => duration_loop coupon base t + ((t + 1 : ℕ) : ℚ) * coupon / base ^ (t + 1)

/-- Macaulay duration discounted at required_yield (source lines 56-66). -/
def calculate_macaulay_duration (b : Bond) : ℚ :=
  let coupon := calculate_coupon b
  let periods := b.remaining_years * b.payment_frequency
  (duration_loop coupon (1 + b.required_yield / b.payment_frequency) periods
    + (periods : ℚ) * b.face_value
        / (1 + b.required_yield / b.payment_frequency) ^ periods)
    / b.market_price

/-- Modified duration (source lines 68-71). -/
def calculate_modified_duration (b : Bond) : ℚ :=
  calculate_macaulay_duration b / (1 + b.required_yield / b.payment_frequency)

/-- The accumulation loop of calculate_convexity (source lines 78-80):
after n passes the accumulator holds the sum over t = 1..n of
t * (t+1) * coupon / base^(t+2). -/
def convexity_loop (coupon base : ℚ) : ℕ → ℚ
  | 0 => 0
  | t + 1 => convexity_loop coupon base t
      + ((t + 1 : ℕ) : ℚ) * (((t + 1 : ℕ) : ℚ) + 1) * coupon / base ^ (t + 1 + 2)

/-- Convexity discounted at required_yield (source lines 73-83). -/
def calculate_convexity (b : Bond) : ℚ :=
  let coupon := calculate_coupon b
  let periods := b.remaining_years * b.payment_frequency
  (convexity_loop coupon (1 + b.required_yield / b.payment_frequency) periods
    + (periods : ℚ) * ((periods : ℚ) + 1) * b.face_value
        / (1 + b.required_yield / b.payment_frequency) ^ (periods + 2))
    / b.market_price

/-- Current yield: periodic coupon / market_price (source lines 85-87). -/
def calculate_current_yield (b : Bond) : ℚ :=
  calculate_coupon b / b.market_price

/-- The 0.005 step of the sensitivity sweep (source line 90). -/
def yield_change : ℚ := 5 / 1000

/-- The sensitivity sweep loop (source lines 92-96): i runs from
-2*yield_change while i ≤ 2*yield_change, stepping by yield_change; each
pass records (required_yield + i, price at that yield). -/
def sensitivity_loop (b : Bond) : ℕ → ℚ → Option (List (ℚ × ℚ))
  | 0, i => if i ≤ 2 * yield_change then none else some []
  | n + 1, i =>
    if i ≤ 2 * yield_change then
      let new_yield := b.required_yield + i
      let new_price := calculate_present_value b new_yield
      (sensitivity_loop b n (i + yield_change)).map
        fun rest => (new_yield, new_price) :: rest
    else some []

/-- Price-sensitivity report (source lines 89-97), as the list of
(yield, price) pairs it prints. -/
def display_price_sensitivity (b : Bond) (fuel : ℕ) : Option (List (ℚ × ℚ)) :=
  sensitivity_loop b fuel (-2 * yield_change)

/-- One state of the break-even bisection (source lines 100-106).  Note
the comparison: pv < reference_price moves low up to mid, the opposite
update to the one in ytm_loop. -/
def break_even_loop (b : Bond) (reference_price : ℚ) :
    ℕ → ℚ → ℚ → ℚ → Option ℚ
  | 0, low, high, mid =>
    if high - low > 1 / 1000000 then none else some mid
  | n + 1, low, high, mid =>
    if high - low > 1 / 1000000 then
      let m := (low + high) / 2
      let pv := calculate_present_value b m
      if pv < reference_price then break_even_loop b reference_price n m high m
      else break_even_loop b reference_price n low m m
    else some mid

/-- Break-even bisection on [0, 1] (source lines 99-108), stopping when
high - low ≤ 1e-6.  The C++ mid is uninitialized before the first
iteration; we pass 0, which is never returned since the loop always runs
at least once from width 1. -/
def calculate_break_even_yield (b : Bond) (reference_price : ℚ) (fuel : ℕ) :
    Option ℚ :=
  break_even_loop b reference_price fuel 0 1 0

/-- The yield shifts of the scenario report (source line 111). -/
def scenario_deltas : List ℚ := [-2/100, -1/100, 0, 1/100, 2/100]

/-- Scenario report (source lines 110-122), as the list of rows
(yield, price, Macaulay duration, modified duration, convexity) it
prints: the price is recomputed at required_yield + delta, while the
three duration/convexity figures are the member functions evaluated on
the unchanged bond, hence at the unshifted required_yield. -/
def display_scenario_analysis (b : Bond) : List (ℚ × ℚ × ℚ × ℚ × ℚ) :=
  scenario_deltas.map fun delta =>
    let new_yield := b.required_yield + delta
    (new_yield, calculate_present_value b new_yield,
      calculate_macaulay_duration b, calculate_modified_duration b,
      calculate_convexity b)

/-- The one mutating operation (source lines 150-155): overwrite
required_yield with the solved YTM (source defaults tol 1e-6, 1000
iterations), but only when it still holds the unset sentinel -1;
modelled as a state transformer on Bond. -/
def calculate_required_yield (b : Bond) : Bond :=
  if b.required_yield = -1 then
    ⟨b.face_value, b.coupon_rate, b.market_price, b.remaining_years,
      b.payment_frequency, calculate_ytm b (1 / 1000000) 1000⟩
  else b

/-- The worked example of the spec: face 1000, coupon 6%, price 950,
10 years, semiannual; required_yield unset. -/
def exampleBond : Bond := ⟨1000, 6/100, 950, 10, 2, -1⟩

/-- Closed geometric form of the coupon accumulation loop, used to
evaluate present values at the bisection midpoints. -/
theorem pv_loop_geom (coupon base : ℚ) (h0 : base ≠ 0) (h1 : base ≠ 1) :
    ∀ n : ℕ, pv_loop coupon base n
      = coupon * (base ^ n - 1) / (base ^ n * (base - 1))
  | 0 => by simp [pv_loop]
  | n + 1 => by
    have hb : base - 1 ≠ 0 := sub_ne_zero.mpr h1
    have hp : base ^ n ≠ 0 := pow_ne_zero n h0
    rw [pv_loop, pv_loop_geom coupon base h0 h1 n]
    field_simp
    ring

/-- C7: the current yield is the periodic coupon (face_value *
coupon_rate / payment_frequency) divided by market_price; no
annualization by payment_frequency occurs. -/
theorem current_yield_is_periodic_coupon_over_price (b : Bond) :
    calculate_current_yield b
      = b.face_value * b.coupon_rate / b.payment_frequency / b.market_price :=
  rfl

/-- Closed-form evaluation of the example bond's present value, used to
evaluate the bisection loops at their concrete midpoints. -/
theorem pv_example_eval (r : ℚ) (h0 : 1 + r / 2 ≠ 0) (h1 : 1 + r / 2 ≠ 1) :
    calculate_present_value exampleBond r
      = 30 * ((1 + r / 2) ^ 20 - 1) / ((1 + r / 2) ^ 20 * ((1 + r / 2) - 1))
        + 1000 / (1 + r / 2) ^ 20 := by
  simp only [calculate_present_value, calculate_coupon, exampleBond]
  norm_num [pv_loop_geom _ _ h0 h1]

theorem exampleBond_price : exampleBond.market_price = 950 := rfl

theorem ytm_ex_pv_31 : calculate_present_value exampleBond ((71875227/1073741824 + 17968807/268435456) / 2) = 8372867237509684349483398596922731172087385345602338154591704831297994510495416447027402555560462060985045402344714649850837385563891111304170509861354808450237256157176019366986453885268892057600/8813544468580277200476784192100970437649003639579292588703492942096408968579924082460860605893685935039706561297415881898052894038525878238819007807379473313442863504115527876599845370604980001 := by
  rw [pv_example_eval _ (by norm_num) (by norm_num)]
  norm_num

theorem ytm_ex_step_31 : ytm_loop exampleBond (1/1000000) 970 (71875227/1073741824) (17968807/268435456) (71875227/1073741824) = 143750455/2147483648 := by
  rw [show (970:ℕ) = Nat.succ 969 from rfl, ytm_loop.eq_2, exampleBond_price, ytm_ex_pv_31]
  rw [if_pos (by norm_num [abs_lt] : |(950:ℚ) - 8372867237509684349483398596922731172087385345602338154591704831297994510495416447027402555560462060985045402344714649850837385563891111304170509861354808450237256157176019366986453885268892057600/8813544468580277200476784192100970437649003639579292588703492942096408968579924082460860605893685935039706561297415881898052894038525878238819007807379473313442863504115527876599845370604980001| < 1/1000000)]
  norm_num

theorem ytm_ex_pv_30 : calculate_present_value exampleBond ((35937613/536870912 + 17968807/268435456) / 2) = 1596997686085019661333966798610402914457389357275866753150023229824161229311608410486102208663009446642979779792519600405736540982447162186304666721541233814625338196407267817037025987526656/1681050191663390707345882834742053249709270450912173877693946884034292620839030851340034116354726054455664577421395769779500035905462273231113640332978764746485467185266315937042236328125 := by
  rw [pv_example_eval _ (by norm_num) (by norm_num)]
  norm_num

theorem ytm_ex_step_30 : ytm_loop exampleBond (1/1000000) 971 (35937613/536870912) (17968807/268435456) (35937613/536870912) = 143750455/2147483648 := by
  rw [show (971:ℕ) = Nat.succ 970 from rfl, ytm_loop.eq_2, exampleBond_price, ytm_ex_pv_30]
  rw [if_neg (by norm_num [abs_lt] : ¬ |(950:ℚ) - 1596997686085019661333966798610402914457389357275866753150023229824161229311608410486102208663009446642979779792519600405736540982447162186304666721541233814625338196407267817037025987526656/1681050191663390707345882834742053249709270450912173877693946884034292620839030851340034116354726054455664577421395769779500035905462273231113640332978764746485467185266315937042236328125| < 1/1000000)]
  rw [if_neg (by norm_num : ¬ (1596997686085019661333966798610402914457389357275866753150023229824161229311608410486102208663009446642979779792519600405736540982447162186304666721541233814625338196407267817037025987526656/1681050191663390707345882834742053249709270450912173877693946884034292620839030851340034116354726054455664577421395769779500035905462273231113640332978764746485467185266315937042236328125:ℚ) < 950)]
  norm_num
  exact ytm_ex_step_31

theorem ytm_ex_pv_29 : calculate_present_value exampleBond ((8984403/134217728 + 17968807/268435456) / 2) = 7615078366366028626401637404814799150607704272307363376128556111055117824164846211696573594815852235050784453991693904638730065203667770772865819765198615569718511759081920882802688000/8015871889659974589631201466632994822863794987471447536998277336690515364974610988621846289440413486410217122199755479358584175769970515278951165986025973949429445342345416617710801 := by
  rw [pv_example_eval _ (by norm_num) (by norm_num)]
  norm_num

theorem ytm_ex_step_29 : ytm_loop exampleBond (1/1000000) 972 (8984403/134217728) (17968807/268435456) (17968807/268435456) = 143750455/2147483648 := by
  rw [show (972:ℕ) = Nat.succ 971 from rfl, ytm_loop.eq_2, exampleBond_price, ytm_ex_pv_29]
  rw [if_neg (by norm_num [abs_lt] : ¬ |(950:ℚ) - 7615078366366028626401637404814799150607704272307363376128556111055117824164846211696573594815852235050784453991693904638730065203667770772865819765198615569718511759081920882802688000/8015871889659974589631201466632994822863794987471447536998277336690515364974610988621846289440413486410217122199755479358584175769970515278951165986025973949429445342345416617710801| < 1/1000000)]
  rw [if_neg (by norm_num : ¬ (7615078366366028626401637404814799150607704272307363376128556111055117824164846211696573594815852235050784453991693904638730065203667770772865819765198615569718511759081920882802688000/8015871889659974589631201466632994822863794987471447536998277336690515364974610988621846289440413486410217122199755479358584175769970515278951165986025973949429445342345416617710801:ℚ) < 950)]
  norm_num
  exact ytm_ex_step_30

theorem ytm_ex_pv_28 : calculate_present_value exampleBond ((8984403/134217728 + 2246101/33554432) / 2) = 7262304686955368996920719745339237879816018386379349008365891674156477952537092180273629865286467857722772508731213037516503527445676763808364466230374900535795625648172564480000/7644531282550642760375704257434756384275656759376140784497699340659998256203981109504695849923473574172973459250640216102004410338947633986886309261727262841076550029117781601 := by
  rw [pv_example_eval _ (by norm_num) (by norm_num)]
  norm_num

theorem ytm_ex_step_28 : ytm_loop exampleBond (1/1000000) 973 (8984403/134217728) (2246101/33554432) (8984403/134217728) = 143750455/2147483648 := by
  rw [show (973:ℕ) = Nat.succ 972 from rfl, ytm_loop.eq_2, exampleBond_price, ytm_ex_pv_28]
  rw [if_neg (by norm_num [abs_lt] : ¬ |(950:ℚ) - 7262304686955368996920719745339237879816018386379349008365891674156477952537092180273629865286467857722772508731213037516503527445676763808364466230374900535795625648172564480000/7644531282550642760375704257434756384275656759376140784497699340659998256203981109504695849923473574172973459250640216102004410338947633986886309261727262841076550029117781601| < 1/1000000)]
  rw [if_pos (by norm_num : (7262304686955368996920719745339237879816018386379349008365891674156477952537092180273629865286467857722772508731213037516503527445676763808364466230374900535795625648172564480000/7644531282550642760375704257434756384275656759376140784497699340659998256203981109504695849923473574172973459250640216102004410338947633986886309261727262841076550029117781601:ℚ) < 950)]
  norm_num
  exact ytm_ex_step_29

theorem ytm_ex_pv_27 : calculate_present_value exampleBond ((4492201/67108864 + 2246101/33554432) / 2) = 6925873397725030944188599467372154587857127901823056850080407861846174012363008433163683283207178497437173067688136718290460383727037804025256310555229808661066235772928000/7290392882339919078562701208052074973628374922599216263449261828678830948325293333667072372515454455981145400883486124106922415208458033648179731802069187470382744286801 := by
  rw [pv_example_eval _ (by norm_num) (by norm_num)]
  norm_num

theorem ytm_ex_step_27 : ytm_loop exampleBond (1/1000000) 974 (4492201/67108864) (2246101/33554432) (4492201/67108864) = 143750455/2147483648 := by
  rw [show (974:ℕ) = Nat.succ 973 from rfl, ytm_loop.eq_2, exampleBond_price, ytm_ex_pv_27]
  rw [if_neg (by norm_num [abs_lt] : ¬ |(950:ℚ) - 6925873397725030944188599467372154587857127901823056850080407861846174012363008433163683283207178497437173067688136718290460383727037804025256310555229808661066235772928000/7290392882339919078562701208052074973628374922599216263449261828678830948325293333667072372515454455981145400883486124106922415208458033648179731802069187470382744286801| < 1/1000000)]
  rw [if_neg (by norm_num : ¬ (6925873397725030944188599467372154587857127901823056850080407861846174012363008433163683283207178497437173067688136718290460383727037804025256310555229808661066235772928000/7290392882339919078562701208052074973628374922599216263449261828678830948325293333667072372515454455981145400883486124106922415208458033648179731802069187470382744286801:ℚ) < 950)]
  norm_num
  exact ytm_ex_step_28

theorem ytm_ex_pv_26 : calculate_present_value exampleBond ((561525/8388608 + 2246101/33554432) / 2) = 6605027463381732072831145938709718666787287089289421778146220638912955453571220719309317023649406502132213769887948500486736309808642052042049984757294318942683136000/6952659947161129595007849010874904476569206894577982645548727330082316863459823551894403486527956901922893002054963198149065014186351696572843665475399721093002401 := by
  rw [pv_example_eval _ (by norm_num) (by norm_num)]
  norm_num

theorem ytm_ex_step_26 : ytm_loop exampleBond (1/1000000) 975 (561525/8388608) (2246101/33554432) (2246101/33554432) = 143750455/2147483648 := by
  rw [show (975:ℕ) = Nat.succ 974 from rfl, ytm_loop.eq_2, exampleBond_price, ytm_ex_pv_26]
  rw [if_neg (by norm_num [abs_lt] : ¬ |(950:ℚ) - 6605027463381732072831145938709718666787287089289421778146220638912955453571220719309317023649406502132213769887948500486736309808642052042049984757294318942683136000/6952659947161129595007849010874904476569206894577982645548727330082316863459823551894403486527956901922893002054963198149065014186351696572843665475399721093002401| < 1/1000000)]
  rw [if_neg (by norm_num : ¬ (6605027463381732072831145938709718666787287089289421778146220638912955453571220719309317023649406502132213769887948500486736309808642052042049984757294318942683136000/6952659947161129595007849010874904476569206894577982645548727330082316863459823551894403486527956901922893002054963198149065014186351696572843665475399721093002401:ℚ) < 950)]
  norm_num
  exact ytm_ex_step_27

theorem ytm_ex_pv_25 : calculate_present_value exampleBond ((561525/8388608 + 1123051/16777216) / 2) = 1259809053955378528844585918066238540217766573424742155864387820235747429877145548342678590582458653210346007005772195151731519654168207597761657328992954351616/1326114835669695008135186864954172789949291489208498462231496017332711949844907572571036562627570262060543426969159591998927356760789731532135028839111328125 := by
  rw [pv_example_eval _ (by norm_num) (by norm_num)]
  norm_num

theorem ytm_ex_step_25 : ytm_loop exampleBond (1/1000000) 976 (561525/8388608) (1123051/16777216) (1123051/16777216) = 143750455/2147483648 := by
  rw [show (976:ℕ) = Nat.succ 975 from rfl, ytm_loop.eq_2, exampleBond_price, ytm_ex_pv_25]
  rw [if_neg (by norm_num [abs_lt] : ¬ |(950:ℚ) - 1259809053955378528844585918066238540217766573424742155864387820235747429877145548342678590582458653210346007005772195151731519654168207597761657328992954351616/1326114835669695008135186864954172789949291489208498462231496017332711949844907572571036562627570262060543426969159591998927356760789731532135028839111328125| < 1/1000000)]
  rw [if_pos (by norm_num : (1259809053955378528844585918066238540217766573424742155864387820235747429877145548342678590582458653210346007005772195151731519654168207597761657328992954351616/1326114835669695008135186864954172789949291489208498462231496017332711949844907572571036562627570262060543426969159591998927356760789731532135028839111328125:ℚ) < 950)]
  norm_num
  exact ytm_ex_step_26

theorem ytm_ex_pv_24 : calculate_present_value exampleBond ((561525/8388608 + 280763/4194304) / 2) = 6007238108978821053331916136495654947901213500720716476016203555098902493362903717881038785422933317694714881549077539766642678316154470462401923776512000/6323410120408829651968271961167175048280440371052402258636371319427795326628795390082037206559191030429809322367453005575452180290606068256867746751601 := by
  rw [pv_example_eval _ (by norm_num) (by norm_num)]
  norm_num

theorem ytm_ex_step_24 : ytm_loop exampleBond (1/1000000) 977 (561525/8388608) (280763/4194304) (561525/8388608) = 143750455/2147483648 := by
  rw [show (977:ℕ) = Nat.succ 976 from rfl, ytm_loop.eq_2, exampleBond_price, ytm_ex_pv_24]
  rw [if_neg (by norm_num [abs_lt] : ¬ |(950:ℚ) - 6007238108978821053331916136495654947901213500720716476016203555098902493362903717881038785422933317694714881549077539766642678316154470462401923776512000/6323410120408829651968271961167175048280440371052402258636371319427795326628795390082037206559191030429809322367453005575452180290606068256867746751601| < 1/1000000)]
  rw [if_pos (by norm_num : (6007238108978821053331916136495654947901213500720716476016203555098902493362903717881038785422933317694714881549077539766642678316154470462401923776512000/6323410120408829651968271961167175048280440371052402258636371319427795326628795390082037206559191030429809322367453005575452180290606068256867746751601:ℚ) < 950)]
  norm_num
  exact ytm_ex_step_25

theorem ytm_ex_pv_23 : calculate_present_value exampleBond ((140381/2097152 + 280763/4194304) / 2) = 5728947901109940087154754498474182193168254848117957278787589680196587168614118603032503257962967519781457901035139413736403524059547459902871961600/6030470345903872782626456399308353740468245573103744058682507356216303440907632996785126431229436403259012974822595992607656811567644321284578801 := by
  rw [pv_example_eval _ (by norm_num) (by norm_num)]
  norm_num

theorem ytm_ex_step_23 : ytm_loop exampleBond (1/1000000) 978 (140381/2097152) (280763/4194304) (280763/4194304) = 143750455/2147483648 := by
  rw [show (978:ℕ) = Nat.succ 977 from rfl, ytm_loop.eq_2, exampleBond_price, ytm_ex_pv_23]
  rw [if_neg (by norm_num [abs_lt] : ¬ |(950:ℚ) - 5728947901109940087154754498474182193168254848117957278787589680196587168614118603032503257962967519781457901035139413736403524059547459902871961600/6030470345903872782626456399308353740468245573103744058682507356216303440907632996785126431229436403259012974822595992607656811567644321284578801| < 1/1000000)]
  rw [if_neg (by norm_num : ¬ (5728947901109940087154754498474182193168254848117957278787589680196587168614118603032503257962967519781457901035139413736403524059547459902871961600/6030470345903872782626456399308353740468245573103744058682507356216303440907632996785126431229436403259012974822595992607656811567644321284578801:ℚ) < 950)]
  norm_num
  exact ytm_ex_step_24

theorem ytm_ex_pv_22 : calculate_present_value exampleBond ((140381/2097152 + 70191/1048576) / 2) = 5463551991491558767922225499558807948860142158011837541641121593942273925293925263516917514244414102905958297902892928450062799203089776640000/5751111318562069028270431960266592100346087591843581054771303359952781160985034531959901065093597823883990726209990272747937475813190468401 := by
  rw [pv_example_eval _ (by norm_num) (by norm_num)]
  norm_num

theorem ytm_ex_step_22 : ytm_loop exampleBond (1/1000000) 979 (140381/2097152) (70191/1048576) (140381/2097152) = 143750455/2147483648 := by
  rw [show (979:ℕ) = Nat.succ 978 from rfl, ytm_loop.eq_2, exampleBond_price, ytm_ex_pv_22]
  rw [if_neg (by norm_num [abs_lt] : ¬ |(950:ℚ) - 5463551991491558767922225499558807948860142158011837541641121593942273925293925263516917514244414102905958297902892928450062799203089776640000/5751111318562069028270431960266592100346087591843581054771303359952781160985034531959901065093597823883990726209990272747937475813190468401| < 1/1000000)]
  rw [if_pos (by norm_num : (5463551991491558767922225499558807948860142158011837541641121593942273925293925263516917514244414102905958297902892928450062799203089776640000/5751111318562069028270431960266592100346087591843581054771303359952781160985034531959901065093597823883990726209990272747937475813190468401:ℚ) < 950)]
  norm_num
  exact ytm_ex_step_23

theorem ytm_ex_pv_21 : calculate_present_value exampleBond ((35095/524288 + 70191/1048576) / 2) = 1042089262990119065948001530707716966057689973441537733202080421304397213879539773043863685966032134596643777731874996939241708161335296/1096934900459532948120910063111466196081135365138531730674777120835811818121415304103782220063260888784542104131011215229034423828125 := by
  rw [pv_example_eval _ (by norm_num) (by norm_num)]
  norm_num

theorem ytm_ex_step_21 : ytm_loop exampleBond (1/1000000) 980 (35095/524288) (70191/1048576) (70191/1048576) = 143750455/2147483648 := by
  rw [show (980:ℕ) = Nat.succ 979 from rfl, ytm_loop.eq_2, exampleBond_price, ytm_ex_pv_21]
  rw [if_neg (by norm_num [abs_lt] : ¬ |(950:ℚ) - 1042089262990119065948001530707716966057689973441537733202080421304397213879539773043863685966032134596643777731874996939241708161335296/1096934900459532948120910063111466196081135365138531730674777120835811818121415304103782220063260888784542104131011215229034423828125| < 1/1000000)]
  rw [if_neg (by norm_num : ¬ (1042089262990119065948001530707716966057689973441537733202080421304397213879539773043863685966032134596643777731874996939241708161335296/1096934900459532948120910063111466196081135365138531730674777120835811818121415304103782220063260888784542104131011215229034423828125:ℚ) < 950)]
  norm_num
  exact ytm_ex_step_22

theorem ytm_ex_pv_20 : calculate_present_value exampleBond ((35095/524288 + 4387/65536) / 2) = 4969074350667066255827763390802476617572435405119105380524906392951837195705792885760159398355207655660579122651719213133594624000/5230617340413973272894247450891915329286990514218569454155495841974692531633299299493179801266590510498484735000132763786216001 := by
  rw [pv_example_eval _ (by norm_num) (by norm_num)]
  norm_num

theorem ytm_ex_step_20 : ytm_loop exampleBond (1/1000000) 981 (35095/524288) (4387/65536) (35095/524288) = 143750455/2147483648 := by
  rw [show (981:ℕ) = Nat.succ 980 from rfl, ytm_loop.eq_2, exampleBond_price, ytm_ex_pv_20]
  rw [if_neg (by norm_num [abs_lt] : ¬ |(950:ℚ) - 4969074350667066255827763390802476617572435405119105380524906392951837195705792885760159398355207655660579122651719213133594624000/5230617340413973272894247450891915329286990514218569454155495841974692531633299299493179801266590510498484735000132763786216001| < 1/1000000)]
  rw [if_pos (by norm_num : (4969074350667066255827763390802476617572435405119105380524906392951837195705792885760159398355207655660579122651719213133594624000/5230617340413973272894247450891915329286990514218569454155495841974692531633299299493179801266590510498484735000132763786216001:ℚ) < 950)]
  norm_num
  exact ytm_ex_step_21

theorem ytm_ex_pv_19 : calculate_present_value exampleBond ((17547/262144 + 4387/65536) / 2) = 4738868050110828296089126570750879928239218469477134788510040006151992010129908929529592778818067675040058465115960088985600/4988259385176506358352812662446445933217007790553071417670742920603088217669997225803149702647077626017247458982337834401 := by
  rw [pv_example_eval _ (by norm_num) (by norm_num)]
  norm_num

theorem ytm_ex_step_19 : ytm_loop exampleBond (1/1000000) 982 (17547/262144) (4387/65536) (17547/262144) = 143750455/2147483648 := by
  rw [show (982:ℕ) = Nat.succ 981 from rfl, ytm_loop.eq_2, exampleBond_price, ytm_ex_pv_19]
  rw [if_neg (by norm_num [abs_lt] : ¬ |(950:ℚ) - 4738868050110828296089126570750879928239218469477134788510040006151992010129908929529592778818067675040058465115960088985600/4988259385176506358352812662446445933217007790553071417670742920603088217669997225803149702647077626017247458982337834401| < 1/1000000)]
  rw [if_neg (by norm_num : ¬ (4738868050110828296089126570750879928239218469477134788510040006151992010129908929529592778818067675040058465115960088985600/4988259385176506358352812662446445933217007790553071417670742920603088217669997225803149702647077626017247458982337834401:ℚ) < 950)]
  norm_num
  exact ytm_ex_step_20

theorem ytm_ex_pv_18 : calculate_present_value exampleBond ((8773/131072 + 4387/65536) / 2) = 903863331113548807707224868143273804447247561227306161886979615656284637437452418347429598381835069832889625058738176/951417412516815987496896001138929441875031345565000969733664231681125857042295566314074617892306854267120361328125 := by
  rw [pv_example_eval _ (by norm_num) (by norm_num)]
  norm_num

theorem ytm_ex_step_18 : ytm_loop exampleBond (1/1000000) 983 (8773/131072) (4387/65536) (8773/131072) = 143750455/2147483648 := by
  rw [show (983:ℕ) = Nat.succ 982 from rfl, ytm_loop.eq_2, exampleBond_price, ytm_ex_pv_18]
  rw [if_neg (by norm_num [abs_lt] : ¬ |(950:ℚ) - 903863331113548807707224868143273804447247561227306161886979615656284637437452418347429598381835069832889625058738176/951417412516815987496896001138929441875031345565000969733664231681125857042295566314074617892306854267120361328125| < 1/1000000)]
  rw [if_neg (by norm_num : ¬ (903863331113548807707224868143273804447247561227306161886979615656284637437452418347429598381835069832889625058738176/951417412516815987496896001138929441875031345565000969733664231681125857042295566314074617892306854267120361328125:ℚ) < 950)]
  norm_num
  exact ytm_ex_step_19

theorem ytm_ex_pv_17 : calculate_present_value exampleBond ((2193/32768 + 4387/65536) / 2) = 4309917899083823503023425426398374748063985112109581392594370522125013416839853340135581942072118550134194176000/4536544298114453228569780735918986879314372529347145774474603199080258052698121509882973527520042980862455601 := by
  rw [pv_example_eval _ (by norm_num) (by norm_num)]
  norm_num

theorem ytm_ex_step_17 : ytm_loop exampleBond (1/1000000) 984 (2193/32768) (4387/65536) (4387/65536) = 143750455/2147483648 := by
  rw [show (984:ℕ) = Nat.succ 983 from rfl, ytm_loop.eq_2, exampleBond_price, ytm_ex_pv_17]
  rw [if_neg (by norm_num [abs_lt] : ¬ |(950:ℚ) - 4309917899083823503023425426398374748063985112109581392594370522125013416839853340135581942072118550134194176000/4536544298114453228569780735918986879314372529347145774474603199080258052698121509882973527520042980862455601| < 1/1000000)]
  rw [if_neg (by norm_num : ¬ (4309917899083823503023425426398374748063985112109581392594370522125013416839853340135581942072118550134194176000/4536544298114453228569780735918986879314372529347145774474603199080258052698121509882973527520042980862455601:ℚ) < 950)]
  norm_num
  exact ytm_ex_step_18

theorem ytm_ex_pv_16 : calculate_present_value exampleBond ((2193/32768 + 1097/16384) / 2) = 4110331102424173529277881191648943702943743072830761900614168272600094839462085003462117804719670591488000/4326705181834588827975493810239198005511818344763779821660472912906454713448227565966611859707015254801 := by
  rw [pv_example_eval _ (by norm_num) (by norm_num)]
  norm_num

theorem ytm_ex_step_16 : ytm_loop exampleBond (1/1000000) 985 (2193/32768) (1097/16384) (2193/32768) = 143750455/2147483648 := by
  rw [show (985:ℕ) = Nat.succ 984 from rfl, ytm_loop.eq_2, exampleBond_price, ytm_ex_pv_16]
  rw [if_neg (by norm_num [abs_lt] : ¬ |(950:ℚ) - 4110331102424173529277881191648943702943743072830761900614168272600094839462085003462117804719670591488000/4326705181834588827975493810239198005511818344763779821660472912906454713448227565966611859707015254801| < 1/1000000)]
  rw [if_pos (by norm_num : (4110331102424173529277881191648943702943743072830761900614168272600094839462085003462117804719670591488000/4326705181834588827975493810239198005511818344763779821660472912906454713448227565966611859707015254801:ℚ) < 950)]
  norm_num
  exact ytm_ex_step_17

theorem ytm_ex_pv_15 : calculate_present_value exampleBond ((137/2048 + 1097/16384) / 2) = 3919777787535948199481163760923827878284990949351290022779687646152462480284407201620768277577728000/4125658421770813743878740337189717494320342733619286790669490725893825337264791890229865659566401 := by
  rw [pv_example_eval _ (by norm_num) (by norm_num)]
  norm_num

theorem ytm_ex_step_15 : ytm_loop exampleBond (1/1000000) 986 (137/2048) (1097/16384) (1097/16384) = 143750455/2147483648 := by
  rw [show (986:ℕ) = Nat.succ 985 from rfl, ytm_loop.eq_2, exampleBond_price, ytm_ex_pv_15]
  rw [if_neg (by norm_num [abs_lt] : ¬ |(950:ℚ) - 3919777787535948199481163760923827878284990949351290022779687646152462480284407201620768277577728000/4125658421770813743878740337189717494320342733619286790669490725893825337264791890229865659566401| < 1/1000000)]
  rw [if_neg (by norm_num : ¬ (3919777787535948199481163760923827878284990949351290022779687646152462480284407201620768277577728000/4125658421770813743878740337189717494320342733619286790669490725893825337264791890229865659566401:ℚ) < 950)]
  norm_num
  exact ytm_ex_step_16

theorem ytm_ex_pv_14 : calculate_present_value exampleBond ((137/2048 + 549/8192) / 2) = 747691466161809537769245448608298609768213811966682002869644374856250057936850246314796711936/787139296882008317112866051221798734404546594339005674360657721044536595634479522705078125 := by
  rw [pv_example_eval _ (by norm_num) (by norm_num)]
  norm_num

theorem ytm_ex_step_14 : ytm_loop exampleBond (1/1000000) 987 (137/2048) (549/8192) (549/8192) = 143750455/2147483648 := by
  rw [show (987:ℕ) = Nat.succ 986 from rfl, ytm_loop.eq_2, exampleBond_price, ytm_ex_pv_14]
  rw [if_neg (by norm_num [abs_lt] : ¬ |(950:ℚ) - 747691466161809537769245448608298609768213811966682002869644374856250057936850246314796711936/787139296882008317112866051221798734404546594339005674360657721044536595634479522705078125| < 1/1000000)]
  rw [if_pos (by norm_num : (747691466161809537769245448608298609768213811966682002869644374856250057936850246314796711936/787139296882008317112866051221798734404546594339005674360657721044536595634479522705078125:ℚ) < 950)]
  norm_num
  exact ytm_ex_step_15

theorem ytm_ex_pv_13 : calculate_present_value exampleBond ((137/2048 + 275/4096) / 2) = 3565778100579264124228187292809213724416995730348525892303520053933514973927890677760000/3755589944036623326018929348445724422101084616806282013332271997675999964137403559601 := by
  rw [pv_example_eval _ (by norm_num) (by norm_num)]
  norm_num

theorem ytm_ex_step_13 : ytm_loop exampleBond (1/1000000) 988 (137/2048) (275/4096) (275/4096) = 143750455/2147483648 := by
  rw [show (988:ℕ) = Nat.succ 987 from rfl, ytm_loop.eq_2, exampleBond_price, ytm_ex_pv_13]
  rw [if_neg (by norm_num [abs_lt] : ¬ |(950:ℚ) - 3565778100579264124228187292809213724416995730348525892303520053933514973927890677760000/3755589944036623326018929348445724422101084616806282013332271997675999964137403559601| < 1/1000000)]
  rw [if_pos (by norm_num : (3565778100579264124228187292809213724416995730348525892303520053933514973927890677760000/3755589944036623326018929348445724422101084616806282013332271997675999964137403559601:ℚ) < 950)]
  norm_num
  exact ytm_ex_step_14

theorem ytm_ex_pv_12 : calculate_present_value exampleBond ((137/2048 + 69/1024) / 2) = 3401559250084627222370612220248747453261281183844933547937400024128157892207001600/3585842377703802397806619917569746902818922916387465186371114788952560798283601 := by
  rw [pv_example_eval _ (by norm_num) (by norm_num)]
  norm_num

theorem ytm_ex_step_12 : ytm_loop exampleBond (1/1000000) 989 (137/2048) (69/1024) (137/2048) = 143750455/2147483648 := by
  rw [show (989:ℕ) = Nat.succ 988 from rfl, ytm_loop.eq_2, exampleBond_price, ytm_ex_pv_12]
  rw [if_neg (by norm_num [abs_lt] : ¬ |(950:ℚ) - 3401559250084627222370612220248747453261281183844933547937400024128157892207001600/3585842377703802397806619917569746902818922916387465186371114788952560798283601| < 1/1000000)]
  rw [if_pos (by norm_num : (3401559250084627222370612220248747453261281183844933547937400024128157892207001600/3585842377703802397806619917569746902818922916387465186371114788952560798283601:ℚ) < 950)]
  norm_num
  exact ytm_ex_step_13

theorem ytm_ex_pv_11 : calculate_present_value exampleBond ((17/256 + 69/1024) / 2) = 3242133577996999970511198716225556612269147305075656087297695220858686464000/3411657060798488030813135281676523815408440007905933791268775762495021601 := by
  rw [pv_example_eval _ (by norm_num) (by norm_num)]
  norm_num

theorem ytm_ex_step_11 : ytm_loop exampleBond (1/1000000) 990 (17/256) (69/1024) (69/1024) = 143750455/2147483648 := by
  rw [show (990:ℕ) = Nat.succ 989 from rfl, ytm_loop.eq_2, exampleBond_price, ytm_ex_pv_11]
  rw [if_neg (by norm_num [abs_lt] : ¬ |(950:ℚ) - 3242133577996999970511198716225556612269147305075656087297695220858686464000/3411657060798488030813135281676523815408440007905933791268775762495021601| < 1/1000000)]
  rw [if_neg (by norm_num : ¬ (3242133577996999970511198716225556612269147305075656087297695220858686464000/3411657060798488030813135281676523815408440007905933791268775762495021601:ℚ) < 950)]
  norm_num
  exact ytm_ex_step_12

theorem ytm_ex_pv_10 : calculate_present_value exampleBond ((17/256 + 35/512) / 2) = 3095463342647438278451213460598366123177789105636988658495264202240000/3269016859414787824058488999880704541112856405424833934551623927601 := by
  rw [pv_example_eval _ (by norm_num) (by norm_num)]
  norm_num

theorem ytm_ex_step_10 : ytm_loop exampleBond (1/1000000) 991 (17/256) (35/512) (35/512) = 143750455/2147483648 := by
  rw [show (991:ℕ) = Nat.succ 990 from rfl, ytm_loop.eq_2, exampleBond_price, ytm_ex_pv_10]
  rw [if_neg (by norm_num [abs_lt] : ¬ |(950:ℚ) - 3095463342647438278451213460598366123177789105636988658495264202240000/3269016859414787824058488999880704541112856405424833934551623927601| < 1/1000000)]
  rw [if_pos (by norm_num : (3095463342647438278451213460598366123177789105636988658495264202240000/3269016859414787824058488999880704541112856405424833934551623927601:ℚ) < 950)]
  norm_num
  exact ytm_ex_step_11

theorem ytm_ex_pv_9 : calculate_present_value exampleBond ((17/256 + 9/128) / 2) = 2958815270925660770028925421047922221929157404677359446586009600/3147162749120105747776458072313056700153824230153555576022801 := by
  rw [pv_example_eval _ (by norm_num) (by norm_num)]
  norm_num

theorem ytm_ex_step_9 : ytm_loop exampleBond (1/1000000) 992 (17/256) (9/128) (17/256) = 143750455/2147483648 := by
  rw [show (992:ℕ) = Nat.succ 991 from rfl, ytm_loop.eq_2, exampleBond_price, ytm_ex_pv_9]
  rw [if_neg (by norm_num [abs_lt] : ¬ |(950:ℚ) - 2958815270925660770028925421047922221929157404677359446586009600/3147162749120105747776458072313056700153824230153555576022801| < 1/1000000)]
  rw [if_pos (by norm_num : (2958815270925660770028925421047922221929157404677359446586009600/3147162749120105747776458072313056700153824230153555576022801:ℚ) < 950)]
  norm_num
  exact ytm_ex_step_10

theorem ytm_ex_pv_8 : calculate_present_value exampleBond ((1/16 + 9/128) / 2) = 2808907291167539359192727228332286429395514083197568384000/2945190837423705167875564697729320458241471826430830401 := by
  rw [pv_example_eval _ (by norm_num) (by norm_num)]
  norm_num

theorem ytm_ex_step_8 : ytm_loop exampleBond (1/1000000) 993 (1/16) (9/128) (9/128) = 143750455/2147483648 := by
  rw [show (993:ℕ) = Nat.succ 992 from rfl, ytm_loop.eq_2, exampleBond_price, ytm_ex_pv_8]
  rw [if_neg (by norm_num [abs_lt] : ¬ |(950:ℚ) - 2808907291167539359192727228332286429395514083197568384000/2945190837423705167875564697729320458241471826430830401| < 1/1000000)]
  rw [if_neg (by norm_num : ¬ (2808907291167539359192727228332286429395514083197568384000/2945190837423705167875564697729320458241471826430830401:ℚ) < 950)]
  norm_num
  exact ytm_ex_step_9

theorem ytm_ex_pv_7 : calculate_present_value exampleBond ((1/16 + 5/64) / 2) = 540683658882022320834883755569514891102615687927296/583374543969120119415127734933403034210205078125 := by
  rw [pv_example_eval _ (by norm_num) (by norm_num)]
  norm_num

theorem ytm_ex_step_7 : ytm_loop exampleBond (1/1000000) 994 (1/16) (5/64) (5/64) = 143750455/2147483648 := by
  rw [show (994:ℕ) = Nat.succ 993 from rfl, ytm_loop.eq_2, exampleBond_price, ytm_ex_pv_7]
  rw [if_neg (by norm_num [abs_lt] : ¬ |(950:ℚ) - 540683658882022320834883755569514891102615687927296/583374543969120119415127734933403034210205078125| < 1/1000000)]
  rw [if_pos (by norm_num : (540683658882022320834883755569514891102615687927296/583374543969120119415127734933403034210205078125:ℚ) < 950)]
  norm_num
  exact ytm_ex_step_8

theorem ytm_ex_pv_6 : calculate_present_value exampleBond ((1/16 + 3/32) / 2) = 2626891689662603684161228464049417614189433600/2999389172244674021626250714968771318167601 := by
  rw [pv_example_eval _ (by norm_num) (by norm_num)]
  norm_num

theorem ytm_ex_step_6 : ytm_loop exampleBond (1/1000000) 995 (1/16) (3/32) (3/32) = 143750455/2147483648 := by
  rw [show (995:ℕ) = Nat.succ 994 from rfl, ytm_loop.eq_2, exampleBond_price, ytm_ex_pv_6]
  rw [if_neg (by norm_num [abs_lt] : ¬ |(950:ℚ) - 2626891689662603684161228464049417614189433600/2999389172244674021626250714968771318167601| < 1/1000000)]
  rw [if_pos (by norm_num : (2626891689662603684161228464049417614189433600/2999389172244674021626250714968771318167601:ℚ) < 950)]
  norm_num
  exact ytm_ex_step_7

theorem ytm_ex_pv_5 : calculate_present_value exampleBond ((1/16 + 1/8) / 2) = 2605074181972544544554795622406574992000/3322737661703085672358476688602579601 := by
  rw [pv_example_eval _ (by norm_num) (by norm_num)]
  norm_num

theorem ytm_ex_step_5 : ytm_loop exampleBond (1/1000000) 996 (1/16) (1/8) (1/16) = 143750455/2147483648 := by
  rw [show (996:ℕ) = Nat.succ 995 from rfl, ytm_loop.eq_2, exampleBond_price, ytm_ex_pv_5]
  rw [if_neg (by norm_num [abs_lt] : ¬ |(950:ℚ) - 2605074181972544544554795622406574992000/3322737661703085672358476688602579601| < 1/1000000)]
  rw [if_pos (by norm_num : (2605074181972544544554795622406574992000/3322737661703085672358476688602579601:ℚ) < 950)]
  norm_num
  exact ytm_ex_step_6

theorem ytm_ex_pv_4 : calculate_present_value exampleBond ((0 + 1/8) / 2) = 2302610844588661291655192870872000/2345734188103679287078463273601 := by
  rw [pv_example_eval _ (by norm_num) (by norm_num)]
  norm_num

theorem ytm_ex_step_4 : ytm_loop exampleBond (1/1000000) 997 (0) (1/8) (1/8) = 143750455/2147483648 := by
  rw [show (997:ℕ) = Nat.succ 996 from rfl, ytm_loop.eq_2, exampleBond_price, ytm_ex_pv_4]
  rw [if_neg (by norm_num [abs_lt] : ¬ |(950:ℚ) - 2302610844588661291655192870872000/2345734188103679287078463273601| < 1/1000000)]
  rw [if_neg (by norm_num : ¬ (2302610844588661291655192870872000/2345734188103679287078463273601:ℚ) < 950)]
  norm_num
  exact ytm_ex_step_5

theorem ytm_ex_pv_3 : calculate_present_value exampleBond ((0 + 1/4) / 2) = 2579472501390441981599980000/4064231406647572522401601 := by
  rw [pv_example_eval _ (by norm_num) (by norm_num)]
  norm_num

theorem ytm_ex_step_3 : ytm_loop exampleBond (1/1000000) 998 (0) (1/4) (1/4) = 143750455/2147483648 := by
  rw [show (998:ℕ) = Nat.succ 997 from rfl, ytm_loop.eq_2, exampleBond_price, ytm_ex_pv_3]
  rw [if_neg (by norm_num [abs_lt] : ¬ |(950:ℚ) - 2579472501390441981599980000/4064231406647572522401601| < 1/1000000)]
  rw [if_pos (by norm_num : (2579472501390441981599980000/4064231406647572522401601:ℚ) < 950)]
  norm_num
  exact ytm_ex_step_4

theorem ytm_ex_pv_2 : calculate_present_value exampleBond ((0 + 1/2) / 2) = 3794060053674866614000/12157665459056928801 := by
  rw [pv_example_eval _ (by norm_num) (by norm_num)]
  norm_num

theorem ytm_ex_step_2 : ytm_loop exampleBond (1/1000000) 999 (0) (1/2) (1/2) = 143750455/2147483648 := by
  rw [show (999:ℕ) = Nat.succ 998 from rfl, ytm_loop.eq_2, exampleBond_price, ytm_ex_pv_2]
  rw [if_neg (by norm_num [abs_lt] : ¬ |(950:ℚ) - 3794060053674866614000/12157665459056928801| < 1/1000000)]
  rw [if_pos (by norm_num : (3794060053674866614000/12157665459056928801:ℚ) < 950)]
  norm_num
  exact ytm_ex_step_3

theorem ytm_ex_pv_1 : calculate_present_value exampleBond ((0 + 1) / 2) = 2482332405863576/19073486328125 := by
  rw [pv_example_eval _ (by norm_num) (by norm_num)]
  norm_num

theorem ytm_ex_step_1 : ytm_loop exampleBond (1/1000000) 1000 (0) (1) (0) = 143750455/2147483648 := by
  rw [show (1000:ℕ) = Nat.succ 999 from rfl, ytm_loop.eq_2, exampleBond_price, ytm_ex_pv_1]
  rw [if_neg (by norm_num [abs_lt] : ¬ |(950:ℚ) - 2482332405863576/19073486328125| < 1/1000000)]
  rw [if_pos (by norm_num : (2482332405863576/19073486328125:ℚ) < 950)]
  norm_num
  exact ytm_ex_step_2

/-- The YTM bisection for the example bond exits through its tolerance
check on iteration 31 with this exact dyadic rational
(≈ 0.0669390219, the solved yield to maturity). -/
theorem ytm_example_value : calculate_ytm exampleBond (1/1000000) 1000 = 143750455/2147483648 := by
  rw [calculate_ytm]
  exact ytm_ex_step_1

theorem bey_ex_step_21 : break_even_loop exampleBond 950 0 (1048575/1048576) (1) (1048575/1048576) = some (1048575/1048576) := by
  rw [break_even_loop.eq_1]
  rw [if_neg (by norm_num : ¬ ((1:ℚ) - 1048575/1048576 > 1/1000000))]

theorem bey_ex_pv_20 : calculate_present_value exampleBond ((524287/524288 + 1) / 2) = 542767220190896043471968714190482732367164998714269683270483743392952296611615216923342321159760203505849296389539513626194450841600/9003691350278554525331529894387591141773071937444800830752806164313475449521528307431723104250128440219979410384050867287044915201 := by
  rw [pv_example_eval _ (by norm_num) (by norm_num)]
  norm_num

theorem bey_ex_step_20 : break_even_loop exampleBond 950 1 (524287/524288) (1) (524287/524288) = some (1048575/1048576) := by
  rw [show (1:ℕ) = Nat.succ 0 from rfl, break_even_loop.eq_2]
  rw [if_pos (by norm_num : ((1:ℚ) - 524287/524288 > 1/1000000))]
  dsimp only
  rw [bey_ex_pv_20]
  rw [if_pos (by norm_num : (542767220190896043471968714190482732367164998714269683270483743392952296611615216923342321159760203505849296389539513626194450841600/9003691350278554525331529894387591141773071937444800830752806164313475449521528307431723104250128440219979410384050867287044915201:ℚ) < 950)]
  norm_num
  exact bey_ex_step_21

theorem bey_ex_pv_19 : calculate_present_value exampleBond ((262143/262144 + 1) / 2) = 517620373344267238674103169912162858278563829124062722992688908010839735224563437071788072202693347229290453055433321218048000/8586534601693415084420007295667560968307202980880898431715079601802184573030581952756969432442256149602732353302114127052801 := by
  rw [pv_example_eval _ (by norm_num) (by norm_num)]
  norm_num

theorem bey_ex_step_19 : break_even_loop exampleBond 950 2 (262143/262144) (1) (262143/262144) = some (1048575/1048576) := by
  rw [show (2:ℕ) = Nat.succ 1 from rfl, break_even_loop.eq_2]
  rw [if_pos (by norm_num : ((1:ℚ) - 262143/262144 > 1/1000000))]
  dsimp only
  rw [bey_ex_pv_19]
  rw [if_pos (by norm_num : (517620373344267238674103169912162858278563829124062722992688908010839735224563437071788072202693347229290453055433321218048000/8586534601693415084420007295667560968307202980880898431715079601802184573030581952756969432442256149602732353302114127052801:ℚ) < 950)]
  norm_num
  exact bey_ex_step_20

theorem bey_ex_pv_18 : calculate_present_value exampleBond ((131071/131072 + 1) / 2) = 493635945043253434447062502676205731683148025428772391324186050468214994111869607863927973607260449496989198052884480000/8188653391694930319617088025478865152303304976536020778495236436581329903644020567074544737542399377976037956884889601 := by
  rw [pv_example_eval _ (by norm_num) (by norm_num)]
  norm_num

theorem bey_ex_step_18 : break_even_loop exampleBond 950 3 (131071/131072) (1) (131071/131072) = some (1048575/1048576) := by
  rw [show (3:ℕ) = Nat.succ 2 from rfl, break_even_loop.eq_2]
  rw [if_pos (by norm_num : ((1:ℚ) - 131071/131072 > 1/1000000))]
  dsimp only
  rw [bey_ex_pv_18]
  rw [if_pos (by norm_num : (493635945043253434447062502676205731683148025428772391324186050468214994111869607863927973607260449496989198052884480000/8188653391694930319617088025478865152303304976536020778495236436581329903644020567074544737542399377976037956884889601:ℚ) < 950)]
  norm_num
  exact bey_ex_step_19

theorem bey_ex_pv_17 : calculate_present_value exampleBond ((65535/65536 + 1) / 2) = 94151558662663791681338330640740941226454868352512428196788647479149509045760011772910286894559152618761542434816/1561821965355118815471433903142495388359560732258500433991967506314635429729045740499280065248451251983642578125 := by
  rw [pv_example_eval _ (by norm_num) (by norm_num)]
  norm_num

theorem bey_ex_step_17 : break_even_loop exampleBond 950 4 (65535/65536) (1) (65535/65536) = some (1048575/1048576) := by
  rw [show (4:ℕ) = Nat.succ 3 from rfl, break_even_loop.eq_2]
  rw [if_pos (by norm_num : ((1:ℚ) - 65535/65536 > 1/1000000))]
  dsimp only
  rw [bey_ex_pv_17]
  rw [if_pos (by norm_num : (94151558662663791681338330640740941226454868352512428196788647479149509045760011772910286894559152618761542434816/1561821965355118815471433903142495388359560732258500433991967506314635429729045740499280065248451251983642578125:ℚ) < 950)]
  norm_num
  exact bey_ex_step_18

theorem bey_ex_pv_16 : calculate_present_value exampleBond ((32767/32768 + 1) / 2) = 448930297552505640854287658527721402512840296446631133555237558937445194231910779174595338549553012677017600/7446968692298949343122214069110903201234167887249528193102003728326684185677760021798339481752356159488001 := by
  rw [pv_example_eval _ (by norm_num) (by norm_num)]
  norm_num

theorem bey_ex_step_16 : break_even_loop exampleBond 950 5 (32767/32768) (1) (32767/32768) = some (1048575/1048576) := by
  rw [show (5:ℕ) = Nat.succ 4 from rfl, break_even_loop.eq_2]
  rw [if_pos (by norm_num : ((1:ℚ) - 32767/32768 > 1/1000000))]
  dsimp only
  rw [bey_ex_pv_16]
  rw [if_pos (by norm_num : (448930297552505640854287658527721402512840296446631133555237558937445194231910779174595338549553012677017600/7446968692298949343122214069110903201234167887249528193102003728326684185677760021798339481752356159488001:ℚ) < 950)]
  norm_num
  exact bey_ex_step_17

theorem bey_ex_pv_15 : calculate_present_value exampleBond ((16383/16384 + 1) / 2) = 428096448522186580236767028165283834792437993393176429681733889409618185047250251142385185392246784000/7101260357112655943218537770549450446332858782825452981540149496198402661868824021429708921480806401 := by
  rw [pv_example_eval _ (by norm_num) (by norm_num)]
  norm_num

theorem bey_ex_step_15 : break_even_loop exampleBond 950 6 (16383/16384) (1) (16383/16384) = some (1048575/1048576) := by
  rw [show (6:ℕ) = Nat.succ 5 from rfl, break_even_loop.eq_2]
  rw [if_pos (by norm_num : ((1:ℚ) - 16383/16384 > 1/1000000))]
  dsimp only
  rw [bey_ex_pv_15]
  rw [if_pos (by norm_num : (428096448522186580236767028165283834792437993393176429681733889409618185047250251142385185392246784000/7101260357112655943218537770549450446332858782825452981540149496198402661868824021429708921480806401:ℚ) < 950)]
  norm_num
  exact bey_ex_step_16

theorem bey_ex_pv_14 : calculate_present_value exampleBond ((8191/8192 + 1) / 2) = 408194318289301085128123856464698271759112401417037876548725097283470152693534661780115070976000/6770911909972643682154299446205113626021802064220796569697486095500337741838658619386667008001 := by
  rw [pv_example_eval _ (by norm_num) (by norm_num)]
  norm_num

theorem bey_ex_step_14 : break_even_loop exampleBond 950 7 (8191/8192) (1) (8191/8192) = some (1048575/1048576) := by
  rw [show (7:ℕ) = Nat.succ 6 from rfl, break_even_loop.eq_2]
  rw [if_pos (by norm_num : ((1:ℚ) - 8191/8192 > 1/1000000))]
  dsimp only
  rw [bey_ex_pv_14]
  rw [if_pos (by norm_num : (408194318289301085128123856464698271759112401417037876548725097283470152693534661780115070976000/6770911909972643682154299446205113626021802064220796569697486095500337741838658619386667008001:ℚ) < 950)]
  norm_num
  exact bey_ex_step_15

theorem bey_ex_pv_13 : calculate_present_value exampleBond ((4095/4096 + 1) / 2) = 77830088449219258725536666839318310993211221288646006444610444767765214029122861646381056/1290923556378361240493730148047661083730326533718811859838026066427119076251983642578125 := by
  rw [pv_example_eval _ (by norm_num) (by norm_num)]
  norm_num

theorem bey_ex_step_13 : break_even_loop exampleBond 950 8 (4095/4096) (1) (4095/4096) = some (1048575/1048576) := by
  rw [show (8:ℕ) = Nat.succ 7 from rfl, break_even_loop.eq_2]
  rw [if_pos (by norm_num : ((1:ℚ) - 4095/4096 > 1/1000000))]
  dsimp only
  rw [bey_ex_pv_13]
  rw [if_pos (by norm_num : (77830088449219258725536666839318310993211221288646006444610444767765214029122861646381056/1290923556378361240493730148047661083730326533718811859838026066427119076251983642578125:ℚ) < 950)]
  norm_num
  exact bey_ex_step_14

theorem bey_ex_pv_12 : calculate_present_value exampleBond ((2047/2048 + 1) / 2) = 370867333914306880417011199552816000297850209897632550332114254907783067391607193600/6150595490372205092100037598125911668867572730462302120175927760728783155950796801 := by
  rw [pv_example_eval _ (by norm_num) (by norm_num)]
  norm_num

theorem bey_ex_step_12 : break_even_loop exampleBond 950 9 (2047/2048) (1) (2047/2048) = some (1048575/1048576) := by
  rw [show (9:ℕ) = Nat.succ 8 from rfl, break_even_loop.eq_2]
  rw [if_pos (by norm_num : ((1:ℚ) - 2047/2048 > 1/1000000))]
  dsimp only
  rw [bey_ex_pv_12]
  rw [if_pos (by norm_num : (370867333914306880417011199552816000297850209897632550332114254907783067391607193600/6150595490372205092100037598125911668867572730462302120175927760728783155950796801:ℚ) < 950)]
  norm_num
  exact bey_ex_step_13

theorem bey_ex_pv_11 : calculate_present_value exampleBond ((1023/1024 + 1) / 2) = 353199908648137757728311241687768294561137654176754487439897962743602222080000/5856124570544080446074343240134539669531044920118490558591879759213237248001 := by
  rw [pv_example_eval _ (by norm_num) (by norm_num)]
  norm_num

theorem bey_ex_step_11 : break_even_loop exampleBond 950 10 (1023/1024) (1) (1023/1024) = some (1048575/1048576) := by
  rw [show (10:ℕ) = Nat.succ 9 from rfl, break_even_loop.eq_2]
  rw [if_pos (by norm_num : ((1:ℚ) - 1023/1024 > 1/1000000))]
  dsimp only
  rw [bey_ex_pv_11]
  rw [if_pos (by norm_num : (353199908648137757728311241687768294561137654176754487439897962743602222080000/5856124570544080446074343240134539669531044920118490558591879759213237248001:ℚ) < 950)]
  norm_num
  exact bey_ex_step_12

theorem bey_ex_pv_10 : calculate_present_value exampleBond ((511/512 + 1) / 2) = 335911145122772721208354827988485023959804318543041174755909501389312000/5566680925549599743181754363493294551700372877320922684254757417062401 := by
  rw [pv_example_eval _ (by norm_num) (by norm_num)]
  norm_num

theorem bey_ex_step_10 : break_even_loop exampleBond 950 11 (511/512) (1) (511/512) = some (1048575/1048576) := by
  rw [show (11:ℕ) = Nat.succ 10 from rfl, break_even_loop.eq_2]
  rw [if_pos (by norm_num : ((1:ℚ) - 511/512 > 1/1000000))]
  dsimp only
  rw [bey_ex_pv_10]
  rw [if_pos (by norm_num : (335911145122772721208354827988485023959804318543041174755909501389312000/5566680925549599743181754363493294551700372877320922684254757417062401:ℚ) < 950)]
  norm_num
  exact bey_ex_step_11

theorem bey_ex_pv_9 : calculate_present_value exampleBond ((255/256 + 1) / 2) = 63717929059877323151164503859553485874962784174546498798606084096/1054866722292251645844323006558916294503844725990314483642578125 := by
  rw [pv_example_eval _ (by norm_num) (by norm_num)]
  norm_num

theorem bey_ex_step_9 : break_even_loop exampleBond 950 12 (255/256) (1) (255/256) = some (1048575/1048576) := by
  rw [show (12:ℕ) = Nat.succ 11 from rfl, break_even_loop.eq_2]
  rw [if_pos (by norm_num : ((1:ℚ) - 255/256 > 1/1000000))]
  dsimp only
  rw [bey_ex_pv_9]
  rw [if_pos (by norm_num : (63717929059877323151164503859553485874962784174546498798606084096/1054866722292251645844323006558916294503844725990314483642578125:ℚ) < 950)]
  norm_num
  exact bey_ex_step_10

theorem bey_ex_pv_8 : calculate_present_value exampleBond ((127/128 + 1) / 2) = 300500175074738024906492401284840626704919303103817964569600/4964863112802415022469958857164587221158335133348535321601 := by
  rw [pv_example_eval _ (by norm_num) (by norm_num)]
  norm_num

theorem bey_ex_step_8 : break_even_loop exampleBond 950 13 (127/128) (1) (127/128) = some (1048575/1048576) := by
  rw [show (13:ℕ) = Nat.succ 12 from rfl, break_even_loop.eq_2]
  rw [if_pos (by norm_num : ((1:ℚ) - 127/128 > 1/1000000))]
  dsimp only
  rw [bey_ex_pv_8]
  rw [if_pos (by norm_num : (300500175074738024906492401284840626704919303103817964569600/4964863112802415022469958857164587221158335133348535321601:ℚ) < 950)]
  norm_num
  exact bey_ex_step_9

theorem bey_ex_pv_7 : calculate_present_value exampleBond ((63/64 + 1) / 2) = 280327368476879245653993264721135489976615331823936000/4612915289218403758054307414758398481396458498777601 := by
  rw [pv_example_eval _ (by norm_num) (by norm_num)]
  norm_num

theorem bey_ex_step_7 : break_even_loop exampleBond 950 14 (63/64) (1) (63/64) = some (1048575/1048576) := by
  rw [show (14:ℕ) = Nat.succ 13 from rfl, break_even_loop.eq_2]
  rw [if_pos (by norm_num : ((1:ℚ) - 63/64 > 1/1000000))]
  dsimp only
  rw [bey_ex_pv_7]
  rw [if_pos (by norm_num : (280327368476879245653993264721135489976615331823936000/4612915289218403758054307414758398481396458498777601:ℚ) < 950)]
  norm_num
  exact bey_ex_step_8

theorem bey_ex_pv_6 : calculate_present_value exampleBond ((31/32 + 1) / 2) = 255791398370239331342061853316619450779056288000/4175104451029560129032309489748413563128172801 := by
  rw [pv_example_eval _ (by norm_num) (by norm_num)]
  norm_num

theorem bey_ex_step_6 : break_even_loop exampleBond 950 15 (31/32) (1) (31/32) = some (1048575/1048576) := by
  rw [show (15:ℕ) = Nat.succ 14 from rfl, break_even_loop.eq_2]
  rw [if_pos (by norm_num : ((1:ℚ) - 31/32 > 1/1000000))]
  dsimp only
  rw [bey_ex_pv_6]
  rw [if_pos (by norm_num : (255791398370239331342061853316619450779056288000/4175104451029560129032309489748413563128172801:ℚ) < 950)]
  norm_num
  exact bey_ex_step_7

theorem bey_ex_pv_5 : calculate_present_value exampleBond ((15/16 + 1) / 2) = 44655378453944750020944020424876910775936/716971844817084468714820880889892578125 := by
  rw [pv_example_eval _ (by norm_num) (by norm_num)]
  norm_num

theorem bey_ex_step_5 : break_even_loop exampleBond 950 16 (15/16) (1) (15/16) = some (1048575/1048576) := by
  rw [show (16:ℕ) = Nat.succ 15 from rfl, break_even_loop.eq_2]
  rw [if_pos (by norm_num : ((1:ℚ) - 15/16 > 1/1000000))]
  dsimp only
  rw [bey_ex_pv_5]
  rw [if_pos (by norm_num : (44655378453944750020944020424876910775936/716971844817084468714820880889892578125:ℚ) < 950)]
  norm_num
  exact bey_ex_step_6

theorem bey_ex_pv_4 : calculate_present_value exampleBond ((7/8 + 1) / 2) = 178253318527403114524648786926145600/2766668711962335809450748011342401 := by
  rw [pv_example_eval _ (by norm_num) (by norm_num)]
  norm_num

theorem bey_ex_step_4 : break_even_loop exampleBond 950 17 (7/8) (1) (7/8) = some (1048575/1048576) := by
  rw [show (17:ℕ) = Nat.succ 16 from rfl, break_even_loop.eq_2]
  rw [if_pos (by norm_num : ((1:ℚ) - 7/8 > 1/1000000))]
  dsimp only
  rw [bey_ex_pv_4]
  rw [if_pos (by norm_num : (178253318527403114524648786926145600/2766668711962335809450748011342401:ℚ) < 950)]
  norm_num
  exact bey_ex_step_5

theorem bey_ex_pv_3 : calculate_present_value exampleBond ((3/4 + 1) / 2) = 118805285054926975260364852000/1716155831334586342923895201 := by
  rw [pv_example_eval _ (by norm_num) (by norm_num)]
  norm_num

theorem bey_ex_step_3 : break_even_loop exampleBond 950 18 (3/4) (1) (3/4) = some (1048575/1048576) := by
  rw [show (18:ℕ) = Nat.succ 17 from rfl, break_even_loop.eq_2]
  rw [if_pos (by norm_num : ((1:ℚ) - 3/4 > 1/1000000))]
  dsimp only
  rw [bey_ex_pv_3]
  rw [if_pos (by norm_num : (118805285054926975260364852000/1716155831334586342923895201:ℚ) < 950)]
  norm_num
  exact bey_ex_step_4

theorem bey_ex_pv_2 : calculate_present_value exampleBond ((1/2 + 1) / 2) = 54880687378843099954000/672749994932560009201 := by
  rw [pv_example_eval _ (by norm_num) (by norm_num)]
  norm_num

theorem bey_ex_step_2 : break_even_loop exampleBond 950 19 (1/2) (1) (1/2) = some (1048575/1048576) := by
  rw [show (19:ℕ) = Nat.succ 18 from rfl, break_even_loop.eq_2]
  rw [if_pos (by norm_num : ((1:ℚ) - 1/2 > 1/1000000))]
  dsimp only
  rw [bey_ex_pv_2]
  rw [if_pos (by norm_num : (54880687378843099954000/672749994932560009201:ℚ) < 950)]
  norm_num
  exact bey_ex_step_3

theorem bey_ex_pv_1 : calculate_present_value exampleBond ((0 + 1) / 2) = 2482332405863576/19073486328125 := by
  rw [pv_example_eval _ (by norm_num) (by norm_num)]
  norm_num

theorem bey_ex_step_1 : break_even_loop exampleBond 950 20 (0) (1) (0) = some (1048575/1048576) := by
  rw [show (20:ℕ) = Nat.succ 19 from rfl, break_even_loop.eq_2]
  rw [if_pos (by norm_num : ((1:ℚ) - 0 > 1/1000000))]
  dsimp only
  rw [bey_ex_pv_1]
  rw [if_pos (by norm_num : (2482332405863576/19073486328125:ℚ) < 950)]
  norm_num
  exact bey_ex_step_2

/-- The break-even bisection for the example bond terminates after 20
iterations, returning the top of the search interval
(1 - 2^-20 ≈ 0.99999905), far from the bond's YTM: the comparison on
source line 104 moves the wrong endpoint. -/
theorem break_even_example_value :
    calculate_break_even_yield exampleBond 950 20 = some (1048575/1048576) := by
  rw [calculate_break_even_yield]
  exact bey_ex_step_1

/-- Invariant proof for the break-even bisection: as long as the fuel
bound dominates the remaining interval width (which halves every
iteration), the loop reaches its stopping condition and returns a value
inside the current interval, hence inside [0, 1]. -/
theorem break_even_loop_terminates (b : Bond) (ref : ℚ) :
    ∀ (fuel : ℕ) (low high mid : ℚ), high - low ≤ (1 / 1000000) * 2 ^ fuel →
      0 ≤ low → low ≤ high → high ≤ 1 → 0 ≤ mid → mid ≤ 1 →
      ∃ m, break_even_loop b ref fuel low high mid = some m ∧ 0 ≤ m ∧ m ≤ 1 := by
  intro fuel
  induction fuel with
  | zero =>
    intro low high mid hw _ _ _ hm0 hm1
    refine ⟨mid, ?_, hm0, hm1⟩
    rw [break_even_loop.eq_1, if_neg (by rw [pow_zero, mul_one] at hw; exact not_lt.mpr hw)]
  | succ n ih =>
    intro low high mid hw h0 hlh hh1 hm0 hm1
    rw [break_even_loop.eq_2]
    by_cases hc : high - low > 1 / 1000000
    · rw [if_pos hc]
      dsimp only
      have hml : low ≤ (low + high) / 2 := by linarith
      have hmh : (low + high) / 2 ≤ high := by linarith
      have hps : (2:ℚ) ^ (n + 1) = 2 ^ n * 2 := pow_succ 2 n
      by_cases hpv : calculate_present_value b ((low + high) / 2) < ref
      · rw [if_pos hpv]
        exact ih ((low + high) / 2) high ((low + high) / 2)
          (by rw [hps] at hw; linarith) (le_trans h0 hml) hmh hh1
          (le_trans h0 hml) (le_trans hmh hh1)
      · rw [if_neg hpv]
        exact ih low ((low + high) / 2) ((low + high) / 2)
          (by rw [hps] at hw; linarith) h0 hml (le_trans hmh hh1)
          (le_trans h0 hml) (le_trans hmh hh1)
    · rw [if_neg hc]
      exact ⟨mid, rfl, hm0, hm1⟩

/-- C10: for every bond and reference price, the break-even bisection
terminates within 20 iterations (the interval starts with width 1 and
halves each pass, and 2^-20 ≤ 1e-6 stops the loop), and its result lies
in [0, 1]. -/
theorem break_even_yield_terminates_in_20 (b : Bond) (reference_price : ℚ) :
    ∃ m, calculate_break_even_yield b reference_price 20 = some m ∧
      0 ≤ m ∧ m ≤ 1 := by
  rw [calculate_break_even_yield]
  exact break_even_loop_terminates b reference_price 20 0 1 0 (by norm_num)
    (by norm_num) (by norm_num) (by norm_num) (by norm_num) (by norm_num)

/-- The coupon accumulation is antitone in the discount base: a larger
base discounts every summand more. -/
theorem pv_loop_mono (coupon : ℚ) (hc : 0 ≤ coupon) {x1 x2 : ℚ}
    (hx1 : 0 < x1) (hx : x1 ≤ x2) :
    ∀ n : ℕ, pv_loop coupon x2 n ≤ pv_loop coupon x1 n
  | 0 => le_refl _
  | n + 1 => by
    rw [pv_loop.eq_2, pv_loop.eq_2]
    exact add_le_add (pv_loop_mono coupon hc hx1 hx n)
      (div_le_div_of_nonneg_left hc (pow_pos hx1 _) (pow_le_pow_left₀ hx1.le hx _))

/-- C5: present value is strictly decreasing in the rate: for any bond
with positive face value, nonnegative coupon rate and at least one
period, and rates r1 < r2 both above -payment_frequency, the price at r2
is strictly below the price at r1. -/
theorem present_value_strict_anti (b : Bond)
    (hface : 0 < b.face_value) (hcr : 0 ≤ b.coupon_rate)
    (hper : 0 < b.remaining_years * b.payment_frequency)
    {r1 r2 : ℚ}
    (h1 : -(b.payment_frequency : ℚ) < r1)
    (_h2 : -(b.payment_frequency : ℚ) < r2)
    (h12 : r1 < r2) :
    calculate_present_value b r2 < calculate_present_value b r1 := by
  have hfreq : 0 < b.payment_frequency := by
    rcases Nat.eq_zero_or_pos b.payment_frequency with h | h
    · rw [h, Nat.mul_zero] at hper; exact absurd hper (lt_irrefl 0)
    · exact h
  have hf : (0:ℚ) < (b.payment_frequency : ℚ) := by exact_mod_cast hfreq
  have hd1 : (-1 : ℚ) < r1 / b.payment_frequency := by
    have h := (div_lt_div_iff_of_pos_right hf).mpr h1
    rwa [neg_div, div_self hf.ne'] at h
  have hd12 : r1 / (b.payment_frequency : ℚ) < r2 / b.payment_frequency :=
    (div_lt_div_iff_of_pos_right hf).mpr h12
  have hx1 : 0 < 1 + r1 / (b.payment_frequency : ℚ) := by linarith
  have hx12 : 1 + r1 / (b.payment_frequency : ℚ)
      < 1 + r2 / b.payment_frequency := by linarith
  simp only [calculate_present_value, calculate_coupon]
  exact add_lt_add_of_le_of_lt
    (pv_loop_mono _ (div_nonneg (mul_nonneg hface.le hcr) hf.le) hx1 hx12.le _)
    (div_lt_div_of_pos_left hface (pow_pos hx1 _)
      (pow_lt_pow_left₀ hx12 hx1.le hper.ne'))

theorem present_value_strict_anti_witness :
    calculate_present_value exampleBond (2/10)
      < calculate_present_value exampleBond (1/10) :=
  present_value_strict_anti exampleBond (by norm_num [exampleBond])
    (by norm_num [exampleBond]) (by norm_num [exampleBond])
    (by norm_num [exampleBond]) (by norm_num [exampleBond]) (by norm_num)

/-- C3: when periods = remaining_years * payment_frequency is 0 (e.g.
remaining_years = 0), calculate_present_value raises no error: the
coupon loop body never runs and the function returns
face_value / base^0 = face_value, a degenerate zero-length-sum result. -/
theorem present_value_zero_periods (b : Bond) (rate : ℚ)
    (h : b.remaining_years * b.payment_frequency = 0) :
    calculate_present_value b rate = b.face_value := by
  simp [calculate_present_value, h, pv_loop]

def zeroYearsBond : Bond := ⟨1000, 5/100, 950, 0, 2, 6/100⟩

theorem present_value_zero_periods_witness :
    calculate_present_value zeroYearsBond (7/100) = zeroYearsBond.face_value :=
  present_value_zero_periods zeroYearsBond (7/100) (by norm_num [zeroYearsBond])

/-- A bond whose required_yield still holds the unset sentinel -1. -/
def sentinelDurationBond : Bond := ⟨1000, 5/100, 1000, 5, 2, -1⟩

/-- C2: calculate_macaulay_duration performs no sentinel check: invoked
with required_yield = -1 it silently discounts at base
1 + (-1)/2 = 1/2 and returns 10700.85, a meaningless figure, instead of
failing with an UnresolvedYield error. -/
theorem macaulay_duration_sentinel_silently_computes :
    calculate_macaulay_duration sentinelDurationBond = 214017/20 := by
  simp only [calculate_macaulay_duration, calculate_coupon, sentinelDurationBond]
  rw [show ((5:ℕ) * 2) = Nat.succ 9 from rfl, duration_loop.eq_2,
    show (9:ℕ) = Nat.succ 8 from rfl, duration_loop.eq_2,
    show (8:ℕ) = Nat.succ 7 from rfl, duration_loop.eq_2,
    show (7:ℕ) = Nat.succ 6 from rfl, duration_loop.eq_2,
    show (6:ℕ) = Nat.succ 5 from rfl, duration_loop.eq_2,
    show (5:ℕ) = Nat.succ 4 from rfl, duration_loop.eq_2,
    show (4:ℕ) = Nat.succ 3 from rfl, duration_loop.eq_2,
    show (3:ℕ) = Nat.succ 2 from rfl, duration_loop.eq_2,
    show (2:ℕ) = Nat.succ 1 from rfl, duration_loop.eq_2,
    show (1:ℕ) = Nat.succ 0 from rfl, duration_loop.eq_2, duration_loop.eq_1]
  norm_num

/-- C6: each scenario row recomputes the price at the shifted yield
required_yield + delta, while the Macaulay duration, modified duration
and convexity entries are the same three unshifted values in all five
rows; current yield does not read required_yield at all, so it is also
unaffected by the shift. -/
theorem scenario_rows_share_unshifted_metrics (b : Bond) :
    display_scenario_analysis b =
      [(b.required_yield + -2/100, calculate_present_value b (b.required_yield + -2/100),
        calculate_macaulay_duration b, calculate_modified_duration b, calculate_convexity b),
       (b.required_yield + -1/100, calculate_present_value b (b.required_yield + -1/100),
        calculate_macaulay_duration b, calculate_modified_duration b, calculate_convexity b),
       (b.required_yield + 0, calculate_present_value b (b.required_yield + 0),
        calculate_macaulay_duration b, calculate_modified_duration b, calculate_convexity b),
       (b.required_yield + 1/100, calculate_present_value b (b.required_yield + 1/100),
        calculate_macaulay_duration b, calculate_modified_duration b, calculate_convexity b),
       (b.required_yield + 2/100, calculate_present_value b (b.required_yield + 2/100),
        calculate_macaulay_duration b, calculate_modified_duration b, calculate_convexity b)]
    ∧ ∀ y : ℚ,
        calculate_current_yield
          ⟨b.face_value, b.coupon_rate, b.market_price, b.remaining_years,
            b.payment_frequency, y⟩
          = calculate_current_yield b :=
  ⟨rfl, fun _ => rfl⟩

/-- C8: with fuel 6 the sensitivity sweep genuinely terminates (the
result is some list, not a fuel exhaustion) and produces exactly the
five pairs (required_yield + k/200, price there) for k = -2..2, i.e.
shifts of k * 0.005. -/
theorem price_sensitivity_five_pairs (b : Bond) :
    display_price_sensitivity b 6 = some
      [(b.required_yield + -(1/100),
        calculate_present_value b (b.required_yield + -(1/100))),
       (b.required_yield + -(1/200),
        calculate_present_value b (b.required_yield + -(1/200))),
       (b.required_yield + 0, calculate_present_value b (b.required_yield + 0)),
       (b.required_yield + 1/200,
        calculate_present_value b (b.required_yield + 1/200)),
       (b.required_yield + 1/100,
        calculate_present_value b (b.required_yield + 1/100))] := by
  rw [display_price_sensitivity,
    show (6:ℕ) = Nat.succ 5 from rfl, sensitivity_loop.eq_2,
    if_pos (by norm_num [yield_change])]
  dsimp only
  rw [show (5:ℕ) = Nat.succ 4 from rfl, sensitivity_loop.eq_2,
    if_pos (by norm_num [yield_change])]
  dsimp only
  rw [show (4:ℕ) = Nat.succ 3 from rfl, sensitivity_loop.eq_2,
    if_pos (by norm_num [yield_change])]
  dsimp only
  rw [show (3:ℕ) = Nat.succ 2 from rfl, sensitivity_loop.eq_2,
    if_pos (by norm_num [yield_change])]
  dsimp only
  rw [show (2:ℕ) = Nat.succ 1 from rfl, sensitivity_loop.eq_2,
    if_pos (by norm_num [yield_change])]
  dsimp only
  rw [show (1:ℕ) = Nat.succ 0 from rfl, sensitivity_loop.eq_2,
    if_neg (by norm_num [yield_change])]
  norm_num [yield_change]

/-- C9: calculate_required_yield never touches the five input fields; it
is the identity whenever required_yield differs from the sentinel -1,
and when the sentinel is present it overwrites required_yield (and only
that field) with the solved YTM.  Every other operation of the class is
a plain function of the bond (C++ const members) and cannot mutate it. -/
theorem required_yield_single_mutation (b : Bond) :
    (calculate_required_yield b).face_value = b.face_value ∧
    (calculate_required_yield b).coupon_rate = b.coupon_rate ∧
    (calculate_required_yield b).market_price = b.market_price ∧
    (calculate_required_yield b).remaining_years = b.remaining_years ∧
    (calculate_required_yield b).payment_frequency = b.payment_frequency ∧
    (b.required_yield ≠ -1 → calculate_required_yield b = b) ∧
    (b.required_yield = -1 →
      (calculate_required_yield b).required_yield
        = calculate_ytm b (1/1000000) 1000) := by
  unfold calculate_required_yield
  by_cases h : b.required_yield = -1 <;> simp [h]

/-- A bond whose required_yield was supplied by the caller. -/
def presetBond : Bond := ⟨1000, 5/100, 950, 10, 2, 6/100⟩

/-- A sentinel bond for exercising the mutation branch. -/
def sentinelParBond : Bond := ⟨1000, 0, 2000/3, 1, 1, -1⟩

theorem required_yield_single_mutation_witness :
    calculate_required_yield presetBond = presetBond ∧
    (calculate_required_yield sentinelParBond).required_yield
      = calculate_ytm sentinelParBond (1/1000000) 1000 := by
  constructor
  · exact (required_yield_single_mutation presetBond).2.2.2.2.2.1
      (by norm_num [presetBond])
  · exact (required_yield_single_mutation sentinelParBond).2.2.2.2.2.2
      (by norm_num [sentinelParBond])

/-- C1 evidence: for the example bond the break-even solver applied to
the market price 950 returns 1 - 2^-20 ≈ 0.99999905 while the YTM solver
returns ≈ 0.0669: the two disagree by ≈ 0.933, far above 1e-5.  The
break-even comparison (source line 104) moves low up when the price at
mid is below the reference, the reverse of the YTM update (line 46),
so its bisection walks away from the root instead of toward it. -/
theorem break_even_disagrees_with_ytm :
    calculate_break_even_yield exampleBond 950 20 = some (1048575/1048576) ∧
    |(1048575/1048576 : ℚ) - calculate_ytm exampleBond (1/1000000) 1000|
      > 1/100000 := by
  refine ⟨break_even_example_value, ?_⟩
  rw [ytm_example_value]
  norm_num [lt_abs]

/-- Present value of the example bond at the solved YTM. -/
theorem ytm_ex_pv_final :
    calculate_present_value exampleBond (143750455/2147483648)
      = 8372867237509684349483398596922731172087385345602338154591704831297994510495416447027402555560462060985045402344714649850837385563891111304170509861354808450237256157176019366986453885268892057600/8813544468580277200476784192100970437649003639579292588703492942096408968579924082460860605893685935039706561297415881898052894038525878238819007807379473313442863504115527876599845370604980001 := by
  rw [pv_example_eval _ (by norm_num) (by norm_num)]
  norm_num

/-- C4 (amended): for the example bond the solved YTM is within 1e-4 of
0.0669 (not 0.0672), and the round-trip law holds there: the present
value at the solved YTM reproduces the market price 950 within 1e-4
(indeed within the solver tolerance 1e-6). -/
theorem ytm_roundtrip_example :
    |calculate_ytm exampleBond (1/1000000) 1000 - 669/10000| ≤ 1/10000 ∧
    |calculate_present_value exampleBond
        (calculate_ytm exampleBond (1/1000000) 1000) - 950| ≤ 1/10000 := by
  rw [ytm_example_value, ytm_ex_pv_final]
  constructor
  · norm_num [abs_le]
  · norm_num [abs_le]

/-- Every value the YTM bisection can return is a dyadic rational: the
endpoints gain one factor of 2 in their denominator per iteration, and
the result (whether an early tolerance exit or the last midpoint) lies
in the current interval, hence in [0, 1]. -/
theorem ytm_loop_dyadic (b : Bond) (tol : ℚ) :
    ∀ (fuel j : ℕ) (low high mid : ℚ),
      (∃ a : ℤ, low = (a : ℚ) / 2 ^ j) →
      (∃ a : ℤ, high = (a : ℚ) / 2 ^ j) →
      (∃ a : ℤ, mid = (a : ℚ) / 2 ^ j) →
      0 ≤ low → low ≤ high → high ≤ 1 → 0 ≤ mid → mid ≤ 1 →
      ∃ d : ℤ, ytm_loop b tol fuel low high mid = (d : ℚ) / 2 ^ (j + fuel) ∧
        0 ≤ ytm_loop b tol fuel low high mid ∧
        ytm_loop b tol fuel low high mid ≤ 1 := by
  intro fuel
  induction fuel with
  | zero =>
    intro j low high mid _ _ hm _ _ _ hm0 hm1
    obtain ⟨a, ha⟩ := hm
    rw [ytm_loop.eq_1]
    exact ⟨a, by rw [Nat.add_zero, ha], hm0, hm1⟩
  | succ n ih =>
    intro j low high mid hl hh _ h0 hlh hh1 _ _
    obtain ⟨a, ha⟩ := hl
    obtain ⟨c, hc⟩ := hh
    have h2j : ((2:ℚ) ^ j) ≠ 0 := by positivity
    have hmid_dy : (low + high) / 2 = ((a + c : ℤ) : ℚ) / 2 ^ (j + 1) := by
      rw [ha, hc, pow_succ]
      push_cast
      field_simp
    have dyad_shift : ∀ z : ℤ, (z : ℚ) / 2 ^ j = ((2 * z : ℤ) : ℚ) / 2 ^ (j + 1) := by
      intro z
      push_cast
      rw [pow_succ, mul_comm (2:ℚ) (z:ℚ),
        mul_div_mul_right _ _ ((two_ne_zero : (2:ℚ) ≠ 0))]
    have hlow_dy : low = ((2 * a : ℤ) : ℚ) / 2 ^ (j + 1) := by
      rw [ha]
      exact dyad_shift a
    have hhigh_dy : high = ((2 * c : ℤ) : ℚ) / 2 ^ (j + 1) := by
      rw [hc]
      exact dyad_shift c
    have hml : low ≤ (low + high) / 2 := by linarith
    have hmh : (low + high) / 2 ≤ high := by linarith
    have hm0' : 0 ≤ (low + high) / 2 := le_trans h0 hml
    have hm1' : (low + high) / 2 ≤ 1 := le_trans hmh hh1
    rw [ytm_loop.eq_2]
    by_cases ht : |b.market_price - calculate_present_value b ((low + high) / 2)| < tol
    · rw [if_pos ht]
      refine ⟨(a + c) * 2 ^ n, ?_, hm0', hm1'⟩
      rw [hmid_dy]
      push_cast
      rw [show (2:ℚ) ^ (j + (n + 1)) = 2 ^ (j + 1) * 2 ^ n from by
        rw [← pow_add]
        congr 1
        omega]
      rw [mul_div_mul_right _ _ (by positivity : ((2:ℚ) ^ n) ≠ 0)]
    · rw [if_neg ht]
      by_cases hpv : calculate_present_value b ((low + high) / 2) < b.market_price
      · rw [if_pos hpv]
        obtain ⟨d, hd, hr0, hr1⟩ := ih (j + 1) low ((low + high) / 2) ((low + high) / 2)
          ⟨2 * a, hlow_dy⟩ ⟨a + c, hmid_dy⟩ ⟨a + c, hmid_dy⟩ h0 hml hm1' hm0' hm1'
        rw [show (j + 1) + n = j + (n + 1) from by omega] at hd
        exact ⟨d, hd, hr0, hr1⟩
      · rw [if_neg hpv]
        obtain ⟨d, hd, hr0, hr1⟩ := ih (j + 1) ((low + high) / 2) high ((low + high) / 2)
          ⟨a + c, hmid_dy⟩ ⟨2 * c, hhigh_dy⟩ ⟨a + c, hmid_dy⟩ hm0' hmh hh1 hm0' hm1'
        rw [show (j + 1) + n = j + (n + 1) from by omega] at hd
        exact ⟨d, hd, hr0, hr1⟩

/-- A valid bond of extreme magnitude: face 10^300, zero coupon, one
annual period, market price 3/4 of face, so its true yield is exactly
1/3 (present value at 1/3 reproduces the price). -/
def hugeBond : Bond := ⟨10 ^ 300, 0, 3 * 10 ^ 300 / 4, 1, 1, -1⟩

/-- With zero coupon and one period, the present value of hugeBond is
the discounted redemption alone. -/
theorem pv_huge (r : ℚ) :
    calculate_present_value hugeBond r = 10 ^ 300 / (1 + r) := by
  simp only [calculate_present_value, calculate_coupon, hugeBond]
  rw [show ((1:ℕ) * 1) = Nat.succ 0 from rfl, pv_loop.eq_2, pv_loop.eq_1]
  norm_num

theorem pv_huge_at_third :
    calculate_present_value hugeBond (1/3) = hugeBond.market_price := by
  rw [pv_huge]
  norm_num [hugeBond]

/-- C4 counterexample: both halves of the claim fail.  (i) For the
spec's worked bond the solved YTM is 143750455/2147483648 ≈ 0.0669390,
not within 1e-4 of the quoted 0.0672.  (ii) The universal round-trip
law fails as stated: hugeBond is a valid bond (positive face and price,
one period) whose true yield is exactly 1/3 ∈ [0, 1] (its present value
at 1/3 equals its market price), yet the price at the solved YTM misses
the market price by more than the solver tolerance 1e-6 — every value
the bisection can return after 1000 halvings is a dyadic d/2^1000 with
|d/2^1000 - 1/3| ≥ 1/(3·2^1000), and the huge face value 10^300 scales
that rate gap to a price residual of at least 10^300/(8·2^1000) > 1e-6. -/
theorem ytm_universal_roundtrip_counterexample :
    (¬ |calculate_ytm exampleBond (1/1000000) 1000 - 672/10000| ≤ 1/10000) ∧
    0 < hugeBond.face_value ∧ 0 < hugeBond.market_price ∧
    hugeBond.remaining_years * hugeBond.payment_frequency = 1 ∧
    calculate_present_value hugeBond (1/3) = hugeBond.market_price ∧
    |calculate_present_value hugeBond (calculate_ytm hugeBond (1/1000000) 1000)
        - hugeBond.market_price| > 1/1000000 := by
  refine ⟨?_, by norm_num [hugeBond], by norm_num [hugeBond], rfl, pv_huge_at_third, ?_⟩
  · rw [ytm_example_value]
    norm_num [abs_le]
  · obtain ⟨d, hd, hr0, hr1⟩ := ytm_loop_dyadic hugeBond (1/1000000) 1000 0 0 1 0
      ⟨0, by norm_num⟩ ⟨1, by norm_num⟩ ⟨0, by norm_num⟩ (le_refl 0) (by norm_num)
      (le_refl 1) (le_refl 0) (by norm_num)
    rw [calculate_ytm]
    set r : ℚ := ytm_loop hugeBond (1/1000000) 1000 0 1 0 with hrdef
    rw [Nat.zero_add] at hd
    rw [pv_huge]
    have hmp : hugeBond.market_price = 3 * 10 ^ 300 / 4 := rfl
    have h1rpos : (0:ℚ) < 1 + r := by linarith
    have key : 10 ^ 300 / (1 + r) - hugeBond.market_price
        = 10 ^ 300 * (1 - 3 * r) / (4 * (1 + r)) := by
      rw [hmp]
      field_simp
      ring
    rw [key, abs_div, abs_of_pos (by linarith : (0:ℚ) < 4 * (1 + r)), abs_mul,
      abs_of_pos (by positivity : (0:ℚ) < (10:ℚ) ^ 300)]
    have hnum : (1:ℚ) / 2 ^ 1000 ≤ |1 - 3 * r| := by
      have hne : (2:ℤ) ^ 1000 - 3 * d ≠ 0 := by
        intro hcontra
        have h3 : (3:ℤ) ∣ 2 ^ 1000 := ⟨d, by linarith⟩
        have h3n : (3:ℕ) ∣ 2 ^ 1000 := by exact_mod_cast h3
        have hmod : (2 ^ 1000 : ℕ) % 3 = 1 := by norm_num
        rw [Nat.dvd_iff_mod_eq_zero] at h3n
        omega
      rw [hd]
      have hrepr : (1:ℚ) - 3 * ((d:ℚ) / 2 ^ 1000)
          = ((2 ^ 1000 - 3 * d : ℤ) : ℚ) / 2 ^ 1000 := by
        push_cast
        field_simp
      rw [hrepr, abs_div, abs_of_pos (by positivity : (0:ℚ) < 2 ^ 1000)]
      have h1le : (1:ℚ) ≤ |((2 ^ 1000 - 3 * d : ℤ) : ℚ)| := by
        rw [← Int.cast_abs]
        exact_mod_cast Int.one_le_abs hne
      exact (div_le_div_iff_of_pos_right (by positivity)).mpr h1le
    have hden : 4 * (1 + r) ≤ 8 := by linarith
    calc (1:ℚ) / 1000000 < 10 ^ 300 * ((1:ℚ) / 2 ^ 1000) / 8 := by norm_num
      _ ≤ 10 ^ 300 * |1 - 3 * r| / 8 :=
        (div_le_div_iff_of_pos_right (by norm_num)).mpr
          (mul_le_mul_of_nonneg_left hnum (by positivity))
      _ ≤ 10 ^ 300 * |1 - 3 * r| / (4 * (1 + r)) :=
        div_le_div_of_nonneg_left (by positivity) (by linarith) hden
